import Mathlib

/-!
Verification of the GNSS trajectory feature-extraction and road-type
classification program (majorProject.py) against its specification.

The pure computational core is embedded shallowly over the reals:
Python float arithmetic is modelled by exact real arithmetic, the Python
modulo operator on floats by `pymod` (result carries the sign of the
modulus), and `math.atan2` by the argument of a complex number.

The geodesic distance comes from the external geopy library and the
fitted classifier from the external sklearn library; where a claim needs
them they are modelled from the specification, and that is recorded in
the corresponding doc comment.
-/

open Real

namespace SmartNavigator

/-- Python float modulo `a % b`: `a - b * floor (a / b)`.  For `b > 0` the
result lies in `[0, b)` regardless of the sign of `a`. -/
noncomputable def pymod (a b : ℝ) : ℝ := a - b * ⌊a / b⌋

/-- The two-argument arctangent `math.atan2 y x`, modelled as the argument
of the complex number `x + y i` (range `(-pi, pi]`, and `atan2 0 0 = 0`,
matching the Python function on these inputs). -/
noncomputable def atan2 (y x : ℝ) : ℝ := Complex.arg ⟨x, y⟩

/-- Degrees to radians, `math.radians`. -/
noncomputable def radians (d : ℝ) : ℝ := d * π / 180

/-- Radians to degrees, `math.degrees`. -/
noncomputable def degrees (r : ℝ) : ℝ := r * 180 / π

/-- Modelled from the spec: the source calls the external geopy function
`geodesic(coord1, coord2).meters`, whose implementation is not part of
this repository.  The spec describes it as the great-circle distance
between two (lat, lon) pairs, non-negative, symmetric, and zero at equal
coordinates; it is modelled here as the spherical law-of-cosines
great-circle distance on a sphere of the mean Earth radius in meters. -/
noncomputable def geodesic_meters (coord1 coord2 : ℝ × ℝ) : ℝ :=
  6371008.8 * Real.arccos
    (Real.sin (radians coord1.1) * Real.sin (radians coord2.1) +
     Real.cos (radians coord1.1) * Real.cos (radians coord2.1) *
       Real.cos (radians coord2.2 - radians coord1.2))

/-- Embeds `calculate_speed` (majorProject.py lines 13-16): distance over
time delta in seconds, scaled by 3.6 to km/h, and 0 whenever the time
delta is not positive. -/
noncomputable def calculate_speed (coord1 coord2 : ℝ × ℝ) (time1 time2 : ℝ) : ℝ :=
  if time2 - time1 > 0 then geodesic_meters coord1 coord2 / (time2 - time1) * 3.6 else 0

/-- Embeds `calculate_heading` (majorProject.py lines 19-29): initial
bearing from coord1 to coord2 by the spherical bearing formula, then
normalized by adding 360 and reducing modulo 360. -/
noncomputable def calculate_heading (coord1 coord2 : ℝ × ℝ) : ℝ :=
  pymod
    (degrees
      (atan2
        (Real.sin (radians coord2.2 - radians coord1.2) * Real.cos (radians coord2.1))
        (Real.cos (radians coord1.1) * Real.sin (radians coord2.1) -
          Real.sin (radians coord1.1) * Real.cos (radians coord2.1) *
            Real.cos (radians coord2.2 - radians coord1.2))) + 360)
    360

/-- Embeds `calculate_turning_angle` (majorProject.py lines 32-36):
absolute value of `(heading2 - heading1 + 180) % 360 - 180`. -/
noncomputable def calculate_turning_angle (heading1 heading2 : ℝ) : ℝ :=
  |pymod (heading2 - heading1 + 180) 360 - 180|

/-- One GNSS fix: `[lat, lon, timestamp]` as assembled by the input loop
(majorProject.py line 102); the timestamp is the already-parsed instant,
in seconds. -/
structure Fix where
  lat : ℝ
  lon : ℝ
  timestamp : ℝ

/-- Embeds the speed validation of `process_gnss_points` (majorProject.py
lines 47-49): a raw speed below 0 or above 200 km/h is replaced by 0. -/
noncomputable def validate_speed (speed : ℝ) : ℝ :=
  if speed < 0 ∨ speed > 200 then 0 else speed

/-- The loop body of `process_gnss_points` (majorProject.py lines 42-58),
as a recursion over the remaining fixes: `prev` is the fix at index `i-1`
and `prevHeading` the heading of the previous pair (`none` on the first
iteration).  Returns the four parallel lists
(speeds, distances, headings, turning angles). -/
noncomputable def processFrom (prev : Fix) (prevHeading : Option ℝ) :
    List Fix → List ℝ × List ℝ × List ℝ × List ℝ
  | [] => ([], [], [], [])
  | q :: rest =>
    (validate_speed
        (calculate_speed (prev.lat, prev.lon) (q.lat, q.lon) prev.timestamp q.timestamp) ::
      (processFrom q (some (calculate_heading (prev.lat, prev.lon) (q.lat, q.lon))) rest).1,
     geodesic_meters (prev.lat, prev.lon) (q.lat, q.lon) ::
      (processFrom q (some (calculate_heading (prev.lat, prev.lon) (q.lat, q.lon))) rest).2.1,
     calculate_heading (prev.lat, prev.lon) (q.lat, q.lon) ::
      (processFrom q (some (calculate_heading (prev.lat, prev.lon) (q.lat, q.lon))) rest).2.2.1,
     (match prevHeading with
      | none => 0
      | some h =>
        calculate_turning_angle h (calculate_heading (prev.lat, prev.lon) (q.lat, q.lon))) ::
      (processFrom q (some (calculate_heading (prev.lat, prev.lon) (q.lat, q.lon))) rest).2.2.2)

/-- Embeds `process_gnss_points` (majorProject.py lines 39-59): iterate
over adjacent pairs of fixes, producing the parallel lists
(speeds, distances, headings, turning angles).  With fewer than two fixes
the Python loop body never runs and four empty lists are returned. -/
noncomputable def process_gnss_points : List Fix → List ℝ × List ℝ × List ℝ × List ℝ
  | [] => ([], [], [], [])
  | p :: rest => processFrom p none rest

/-- Predicted road-type label (majorProject.py lines 125-127: prediction
1 is rendered as Highway, anything else as Service Road). -/
inductive Label where
  | Highway
  | ServiceRoad
deriving DecidableEq

/-- The per-segment feature triple fed to the classifier
(majorProject.py lines 108-114). -/
structure FeatureVector where
  speed : ℝ
  distance : ℝ
  turning_angle : ℝ

/-- Modelled from the spec: the ThresholdStrategy classifier does not
appear in the source (the source only uses the fitted random forest); the
spec defines it as `speed_kmh > 60 implies Highway else ServiceRoad`,
deterministic and stateless. -/
noncomputable def thresholdClassify (fv : FeatureVector) : Label :=
  if fv.speed > 60 then Label.Highway else Label.ServiceRoad

/-- Classification errors named by the spec taxonomy. -/
inductive ClassifyError where
  | InvalidFeature
deriving DecidableEq

/-- Embeds the classification step of the source (majorProject.py lines
115-116 and 125-127): the feature vector is scaled and passed to
`model.predict`, whose integer output is mapped to a label (1 is
Highway, anything else Service Road).  The fitted StandardScaler and
RandomForestClassifier live in the external sklearn library, so their
composed decision function is abstracted as the parameter `predict`.
The source performs no validation of the features at this step: the
result type is lifted to `Except` to make the (absent) failure behaviour
statable, and every input maps to `Except.ok`. -/
def classifySegment (predict : FeatureVector → ℤ) (fv : FeatureVector) :
    Except ClassifyError Label :=
  Except.ok (if predict fv = 1 then Label.Highway else Label.ServiceRoad)

/-! ### Helper lemmas -/

lemma pymod_eq_fract (a : ℝ) : pymod a 360 = 360 * Int.fract (a / 360) := by
  unfold pymod
  rw [Int.fract]
  have h : (360 : ℝ) ≠ 0 := by norm_num
  field_simp

lemma pymod_nonneg (a : ℝ) : 0 ≤ pymod a 360 := by
  rw [pymod_eq_fract]
  have := Int.fract_nonneg (a / 360)
  nlinarith

lemma pymod_lt (a : ℝ) : pymod a 360 < 360 := by
  rw [pymod_eq_fract]
  have := Int.fract_lt_one (a / 360)
  nlinarith

/-- Reflecting the argument of the Python modulo around 360 reflects the
centred residue, so the absolute centred residue is unchanged. -/
lemma abs_pymod_reflect (x : ℝ) :
    |pymod (360 - x) 360 - 180| = |pymod x 360 - 180| := by
  rw [pymod_eq_fract, pymod_eq_fract]
  have hrw : (360 - x) / 360 = -(x / 360) + ((1 : ℤ) : ℝ) := by
    push_cast
    ring
  rw [hrw, Int.fract_add_int]
  by_cases h : Int.fract (x / 360) = 0
  · rw [h, Int.fract_neg_eq_zero.mpr h]
  · rw [Int.fract_neg h]
    rw [show 360 * (1 - Int.fract (x / 360)) - 180
          = -(360 * Int.fract (x / 360) - 180) by ring]
    exact abs_neg _

lemma geodesic_meters_symm (a b : ℝ × ℝ) :
    geodesic_meters a b = geodesic_meters b a := by
  unfold geodesic_meters
  rw [show radians a.2 - radians b.2 = -(radians b.2 - radians a.2) by ring, Real.cos_neg]
  ring_nf

lemma geodesic_meters_self (a : ℝ × ℝ) : geodesic_meters a a = 0 := by
  unfold geodesic_meters
  rw [sub_self, Real.cos_zero, mul_one, ← pow_two, ← pow_two,
    Real.sin_sq_add_cos_sq, Real.arccos_one, mul_zero]

lemma geodesic_meters_nonneg (a b : ℝ × ℝ) : 0 ≤ geodesic_meters a b := by
  unfold geodesic_meters
  have h := Real.arccos_nonneg
    (Real.sin (radians a.1) * Real.sin (radians b.1) +
     Real.cos (radians a.1) * Real.cos (radians b.1) *
       Real.cos (radians b.2 - radians a.2))
  nlinarith

lemma atan2_zero_zero : atan2 0 0 = 0 := by
  unfold atan2
  have h : (⟨0, 0⟩ : ℂ) = 0 := Complex.ext rfl rfl
  rw [h, Complex.arg_zero]

lemma validate_speed_mem (s : ℝ) : 0 ≤ validate_speed s ∧ validate_speed s ≤ 200 := by
  unfold validate_speed
  by_cases h : s < 0 ∨ s > 200
  · rw [if_pos h]
    norm_num
  · rw [if_neg h]
    push_neg at h
    exact ⟨h.1, h.2⟩

lemma processFrom_lengths (rest : List Fix) :
    ∀ (prev : Fix) (ph : Option ℝ),
      (processFrom prev ph rest).1.length = rest.length ∧
      (processFrom prev ph rest).2.1.length = rest.length ∧
      (processFrom prev ph rest).2.2.1.length = rest.length ∧
      (processFrom prev ph rest).2.2.2.length = rest.length := by
  induction rest with
  | nil =>
    intro prev ph
    simp [processFrom]
  | cons q rest ih =>
    intro prev ph
    have h := ih q (some (calculate_heading (prev.lat, prev.lon) (q.lat, q.lon)))
    simp only [processFrom, List.length_cons]
    exact ⟨by rw [h.1], by rw [h.2.1], by rw [h.2.2.1], by rw [h.2.2.2]⟩

lemma calculate_heading_self (a : ℝ × ℝ) : calculate_heading a a = 0 := by
  unfold calculate_heading
  rw [sub_self, Real.sin_zero, zero_mul, Real.cos_zero, mul_one]
  rw [show Real.cos (radians a.1) * Real.sin (radians a.1) -
        Real.sin (radians a.1) * Real.cos (radians a.1) = 0 by ring]
  rw [atan2_zero_zero]
  unfold degrees
  rw [zero_mul, zero_div, zero_add]
  unfold pymod
  rw [show (360 : ℝ) / 360 = 1 by norm_num, Int.floor_one]
  norm_num

lemma processFrom_speeds_mem (rest : List Fix) :
    ∀ (prev : Fix) (ph : Option ℝ) (s : ℝ),
      s ∈ (processFrom prev ph rest).1 → 0 ≤ s ∧ s ≤ 200 := by
  induction rest with
  | nil =>
    intro prev ph s hs
    simp [processFrom] at hs
  | cons q rest ih =>
    intro prev ph s hs
    simp only [processFrom, List.mem_cons] at hs
    rcases hs with hs | hs
    · rw [hs]
      exact validate_speed_mem _
    · exact ih q _ s hs

/-- Two concrete fixes used in witness statements (coordinates from the
end-to-end scenario of the spec; timestamps 600 seconds apart). -/
def fixA : Fix := ⟨18.4879, 74.0234, 0⟩

/-- Second concrete fix for witness statements. -/
def fixB : Fix := ⟨18.4885, 74.0240, 600⟩

/-! ### Claim theorems -/

/-- C1: for every ordered list of at least two fixes,
`process_gnss_points` returns four parallel sequences (speeds,
distances, headings, turning angles) each of length exactly one less
than the number of fixes, and the first turning angle is 0. -/
theorem process_gnss_points_segments (pts : List Fix) (h : 2 ≤ pts.length) :
    (process_gnss_points pts).1.length = pts.length - 1 ∧
    (process_gnss_points pts).2.1.length = pts.length - 1 ∧
    (process_gnss_points pts).2.2.1.length = pts.length - 1 ∧
    (process_gnss_points pts).2.2.2.length = pts.length - 1 ∧
    (process_gnss_points pts).2.2.2.head? = some 0 := by
  cases pts with
  | nil => simp at h
  | cons p rest =>
    cases rest with
    | nil => simp at h
    | cons q r =>
      have hl := processFrom_lengths (q :: r) p none
      have hpts : (p :: q :: r).length - 1 = (q :: r).length := by simp
      have hpg : process_gnss_points (p :: q :: r) = processFrom p none (q :: r) := rfl
      rw [hpg, hpts]
      exact ⟨hl.1, hl.2.1, hl.2.2.1, hl.2.2.2, rfl⟩

/-- Witness for C1 at a concrete pair of fixes. -/
theorem process_gnss_points_segments_witness :
    2 ≤ ([fixA, fixB] : List Fix).length ∧
    ((process_gnss_points [fixA, fixB]).1.length = [fixA, fixB].length - 1 ∧
     (process_gnss_points [fixA, fixB]).2.1.length = [fixA, fixB].length - 1 ∧
     (process_gnss_points [fixA, fixB]).2.2.1.length = [fixA, fixB].length - 1 ∧
     (process_gnss_points [fixA, fixB]).2.2.2.length = [fixA, fixB].length - 1 ∧
     (process_gnss_points [fixA, fixB]).2.2.2.head? = some 0) :=
  ⟨by simp, process_gnss_points_segments [fixA, fixB] (by simp)⟩

/-- C2: the speed validation replaces any raw speed below 0 or above
200 km/h by 0, and consequently every element of the speeds sequence
returned by `process_gnss_points` lies in the interval `[0, 200]`. -/
theorem process_gnss_points_speed_bounds :
    (∀ s : ℝ, s < 0 ∨ s > 200 → validate_speed s = 0) ∧
    ∀ (pts : List Fix) (s : ℝ), s ∈ (process_gnss_points pts).1 → 0 ≤ s ∧ s ≤ 200 := by
  constructor
  · intro s hs
    unfold validate_speed
    rw [if_pos hs]
  · intro pts s hs
    cases pts with
    | nil => simp [process_gnss_points] at hs
    | cons p rest => exact processFrom_speeds_mem rest p none s hs

/-- Witness for C2: a negative raw speed is clamped to 0, and the speed
emitted for a pair of fixes with equal timestamps is 0, inside the
interval. -/
theorem process_gnss_points_speed_bounds_witness :
    validate_speed (-1) = 0 ∧ (0 ≤ (0 : ℝ) ∧ (0 : ℝ) ≤ 200) :=
  ⟨process_gnss_points_speed_bounds.1 (-1) (Or.inl (by norm_num)),
   process_gnss_points_speed_bounds.2 [fixA, fixA] 0
     (by simp [process_gnss_points, processFrom, calculate_speed, validate_speed, fixA])⟩

/-- C3: whenever the second timestamp is not after the first (including
equality), `calculate_speed` returns 0; the division by the time delta
is guarded by the positivity test and no exception can arise. -/
theorem calculate_speed_nonpos_delta (coord1 coord2 : ℝ × ℝ) (t1 t2 : ℝ)
    (h : t2 ≤ t1) : calculate_speed coord1 coord2 t1 t2 = 0 := by
  unfold calculate_speed
  rw [if_neg]
  intro hc
  linarith

/-- Witness for C3 at equal timestamps. -/
theorem calculate_speed_nonpos_delta_witness :
    (5 : ℝ) ≤ 5 ∧ calculate_speed (18.4879, 74.0234) (18.4885, 74.0240) 5 5 = 0 :=
  ⟨by norm_num,
   calculate_speed_nonpos_delta (18.4879, 74.0234) (18.4885, 74.0240) 5 5 (by norm_num)⟩

/-- C4: `calculate_turning_angle` is symmetric in its two headings, its
result lies in `[0, 180]`, and it equals the absolute value of
`(h2 - h1 + 180) mod 360 - 180`. -/
theorem calculate_turning_angle_spec (h1 h2 : ℝ) :
    calculate_turning_angle h1 h2 = calculate_turning_angle h2 h1 ∧
    0 ≤ calculate_turning_angle h1 h2 ∧
    calculate_turning_angle h1 h2 ≤ 180 ∧
    calculate_turning_angle h1 h2 = |pymod (h2 - h1 + 180) 360 - 180| := by
  refine ⟨?_, ?_, ?_, rfl⟩
  · unfold calculate_turning_angle
    rw [show h1 - h2 + 180 = 360 - (h2 - h1 + 180) by ring, abs_pymod_reflect]
  · exact abs_nonneg _
  · unfold calculate_turning_angle
    have h0 := pymod_nonneg (h2 - h1 + 180)
    have h1 := pymod_lt (h2 - h1 + 180)
    rw [abs_le]
    constructor <;> linarith

/-- C5: the heading returned by `calculate_heading` always lies in the
half-open interval `[0, 360)`: the normalization of adding 360 and
reducing modulo 360 eliminates every negative bearing and never yields
360 itself. -/
theorem calculate_heading_range (coord1 coord2 : ℝ × ℝ) :
    0 ≤ calculate_heading coord1 coord2 ∧ calculate_heading coord1 coord2 < 360 := by
  unfold calculate_heading
  exact ⟨pymod_nonneg _, pymod_lt _⟩

/-- C6 counterexample: on a single fix, `process_gnss_points` does not
fail with any error; it simply returns four empty sequences (the Python
loop body never executes and the function returns normally). -/
theorem process_gnss_points_single_fix :
    process_gnss_points [⟨18.4879, 74.0234, 0⟩] = ([], [], [], []) := rfl

/-- C6 amended: when fewer than 2 fixes are supplied,
`process_gnss_points` raises no error and produces no partial feature
data: all four returned sequences are empty. -/
theorem process_gnss_points_short_input (pts : List Fix) (h : pts.length < 2) :
    process_gnss_points pts = ([], [], [], []) := by
  cases pts with
  | nil => rfl
  | cons p rest =>
    cases rest with
    | nil => rfl
    | cons q r =>
      simp only [List.length_cons] at h
      omega

/-- Witness for the amended C6 at a concrete single fix. -/
theorem process_gnss_points_short_input_witness :
    ([fixA] : List Fix).length < 2 ∧ process_gnss_points [fixA] = ([], [], [], []) :=
  ⟨by simp, process_gnss_points_short_input [fixA] (by simp)⟩

/-- C7: the threshold classifier is a pure function of the speed
feature alone: speed strictly greater than 60 yields Highway, speed at
most 60 (including exactly 60) yields ServiceRoad, and two feature
vectors with the same speed classify identically whatever their
distance and turning angle. -/
theorem thresholdClassify_spec (fv fw : FeatureVector) :
    (fv.speed = fw.speed → thresholdClassify fv = thresholdClassify fw) ∧
    (60 < fv.speed → thresholdClassify fv = Label.Highway) ∧
    (fv.speed ≤ 60 → thresholdClassify fv = Label.ServiceRoad) := by
  unfold thresholdClassify
  refine ⟨?_, ?_, ?_⟩
  · intro h
    rw [h]
  · intro h
    rw [if_pos h]
  · intro h
    rw [if_neg (not_lt.mpr h)]

/-- Witness for C7 at speeds 61 and 60 with differing other features. -/
theorem thresholdClassify_spec_witness :
    thresholdClassify ⟨61, 0, 0⟩ = thresholdClassify ⟨61, 500, 90⟩ ∧
    thresholdClassify ⟨61, 0, 0⟩ = Label.Highway ∧
    thresholdClassify ⟨60, 0, 0⟩ = Label.ServiceRoad :=
  ⟨(thresholdClassify_spec ⟨61, 0, 0⟩ ⟨61, 500, 90⟩).1 rfl,
   (thresholdClassify_spec ⟨61, 0, 0⟩ ⟨61, 500, 90⟩).2.1 (by norm_num),
   (thresholdClassify_spec ⟨60, 0, 0⟩ ⟨60, 0, 0⟩).2.2 (by norm_num)⟩

/-- C8 counterexample: a feature vector with negative speed and
negative distance is classified without any failure: the source has no
InvalidFeature validation, so the classification step succeeds. -/
theorem classifySegment_negative_feature_ok :
    classifySegment (fun _ => 1) ⟨-5, -1, 0⟩ = Except.ok Label.Highway := rfl

/-- C8 amended: the classification step never fails: the source
performs no validation of the features, so every feature vector,
including one with negative speed or distance, is mapped to a label. -/
theorem classifySegment_never_fails (predict : FeatureVector → ℤ) (fv : FeatureVector) :
    ∃ l : Label, classifySegment predict fv = Except.ok l :=
  ⟨if predict fv = 1 then Label.Highway else Label.ServiceRoad, rfl⟩

/-- C9: the geodesic distance is symmetric, zero on identical
coordinates, and non-negative. -/
theorem geodesic_meters_spec (a b : ℝ × ℝ) :
    geodesic_meters a b = geodesic_meters b a ∧
    geodesic_meters a a = 0 ∧
    0 ≤ geodesic_meters a b :=
  ⟨geodesic_meters_symm a b, geodesic_meters_self a, geodesic_meters_nonneg a b⟩

/-- C10: for coincident coordinates the heading is deterministically 0
(the two-argument arctangent of 0 and 0 evaluates to 0, normalized to
0), the raw speed is 0, and the emitted, validated speed is 0. -/
theorem coincident_fix_outputs (a : ℝ × ℝ) (t1 t2 : ℝ) :
    calculate_heading a a = 0 ∧
    calculate_speed a a t1 t2 = 0 ∧
    validate_speed (calculate_speed a a t1 t2) = 0 := by
  have hs : calculate_speed a a t1 t2 = 0 := by
    unfold calculate_speed
    rw [geodesic_meters_self, zero_div, zero_mul, ite_self]
  refine ⟨calculate_heading_self a, hs, ?_⟩
  rw [hs]
  unfold validate_speed
  norm_num

end SmartNavigator
